import Mathlib

/-!
Shallow embedding of the WebUtils repository (src/src/WebUtils/core/core.py)
and proofs about its specification claims.

The embedding follows the Python source: dynamically typed Python values are
modelled by the inductive `PyValue`; Python dictionaries by association lists;
Python exceptions by the `PyError` sum, returned through `Except`; `datetime`
values by a record of calendar components with microsecond resolution, with
subtraction through the proleptic Gregorian ordinal exactly as Python's
`datetime` computes `timedelta`s (`total_seconds` is modelled in `ℚ`).
-/

namespace WebUtils

/-- Universe of dynamic Python values that can appear in response bodies,
headers and builder configurations. -/
inductive PyValue : Type where
  | pyNone : PyValue
  | str : String → PyValue
  | int : Int → PyValue
  | rat : ℚ → PyValue
  | bytes : List Nat → PyValue
  | dict : List (String × PyValue) → PyValue

/-- Python truthiness of a value (`bool(v)`): empty strings, empty byte
strings, empty dicts, zero and `None` are falsy. -/
def PyValue.truthy : PyValue → Bool
  | .pyNone => false
  | .str s => !s.isEmpty
  | .int n => decide (n ≠ 0)
  | .rat q => decide (q ≠ 0)
  | .bytes bs => !bs.isEmpty
  | .dict d => !d.isEmpty

/-- Whether a value is a Python `dict` (`isinstance(value, dict)`). -/
def PyValue.isDict : PyValue → Bool
  | .dict _ => true
  | _ => false

/-- Embedding of `core.py`'s `HTTPMethod(Enum)`: the members declared at
lines 268-275 of the source, in source order. -/
inductive HTTPMethod : Type where
  | GET | POST | PUT | DELETE | PATCH | HEAD | OPTIONS | TRACE
deriving DecidableEq

/-- The enum member's `value` attribute, as assigned in the source. -/
def HTTPMethod.value : HTTPMethod → String
  | .GET => "GET"
  | .POST => "POST"
  | .PUT => "PUT"
  | .DELETE => "DELETE"
  | .PATCH => "PATCH"
  | .HEAD => "HEAD"
  | .OPTIONS => "OPTIONS"
  | .TRACE => "TRACE"

/-- Embedding of `HTTPMethod.__str__`, which returns `self.value`. -/
def HTTPMethod.toStr (m : HTTPMethod) : String := m.value

/-- Model of Python's `datetime.datetime`: calendar components with
microsecond resolution, mirroring the attributes Python stores. -/
structure Datetime : Type where
  year : Nat
  month : Nat
  day : Nat
  hour : Nat
  minute : Nat
  second : Nat
  microsecond : Nat

/-- Gregorian leap-year test, as in Python's `calendar.isleap`. -/
def isLeap (y : Nat) : Bool := y % 4 = 0 && (y % 100 ≠ 0 || y % 400 = 0)

/-- Days in the year strictly before month `m` (1-indexed), non-leap year;
the table `_DAYS_BEFORE_MONTH` of Python's `datetime` module. -/
def daysBeforeMonth (m : Nat) : Nat :=
  [0, 0, 31, 59, 90, 120, 151, 181, 212, 243, 273, 304, 334].getD m 0

/-- Proleptic Gregorian ordinal of the date, as `datetime.toordinal`:
day 1 is January 1 of year 1. -/
def Datetime.toOrdinal (d : Datetime) : Nat :=
  let py := d.year - 1
  365 * py + py / 4 - py / 100 + py / 400
    + daysBeforeMonth d.month
    + (if 2 < d.month && isLeap d.year then 1 else 0)
    + d.day

/-- The instant as microseconds from the calendar epoch; subtracting two of
these gives the microseconds of the Python `timedelta` between the two
`datetime`s. -/
def Datetime.toUsec (d : Datetime) : Nat :=
  (((d.toOrdinal * 24 + d.hour) * 60 + d.minute) * 60 + d.second) * 1000000
    + d.microsecond

/-- Difference `a - b` of two datetimes in seconds, as a rational:
Python's `(a - b).total_seconds()`. -/
def durationSeconds (a b : Datetime) : ℚ :=
  ((a.toUsec : ℚ) - (b.toUsec : ℚ)) / 1000000

/-- Zero-pad the decimal rendering of `n` on the left to width `w`, the way
`strftime` pads numeric directives. -/
def padZero (w n : Nat) : String :=
  let s := toString n
  String.mk (List.replicate (w - s.length) '0') ++ s

/-- Embedding of `d.strftime("%Y-%m-%d %H:%M:%S")`: seconds precision, no
timezone, no fractional seconds. -/
def Datetime.strfYmdHMS (d : Datetime) : String :=
  padZero 4 d.year ++ "-" ++ padZero 2 d.month ++ "-" ++ padZero 2 d.day
    ++ " " ++ padZero 2 d.hour ++ ":" ++ padZero 2 d.minute ++ ":" ++ padZero 2 d.second

/-- The exceptions the embedded code can raise: `KeyError` from a missing
configuration key (the MissingField failure, carrying the field name),
`AttributeError` from a failed attribute lookup (carrying object and
attribute name), `TypeError` from a call with missing arguments, and
aiohttp's `ClientResponseError` from `raise_for_status` (the HTTPStatusError,
carrying status code and reason). -/
inductive PyError : Type where
  | keyError : String → PyError
  | attributeError : String → String → PyError
  | typeError : String → PyError
  | clientResponseError : Int → String → PyError
deriving DecidableEq

/-- Embedding of the `HTTPResponse` record (lines 289-580). `body` keeps the
dynamic type `PyValue` because Python stores whatever object was passed;
`duration` is the cached value computed at construction. The Python
attribute `end` is a Lean keyword, hence the quoted field name. -/
structure HTTPResponse : Type where
  body : PyValue
  «end» : Datetime
  headers : List (String × PyValue)
  message : String
  method : HTTPMethod
  start : Datetime
  status : Int
  type : String
  url : String
  duration : ℚ

/-- Embedding of `HTTPResponse.__init__` (lines 308-374): stores the fields,
replaces a missing or falsy `body` with the empty dict (`body or {}`), and
computes `duration = (end - start).total_seconds()`. -/
def HTTPResponse.init («end» : Datetime) (headers : List (String × PyValue))
    (message : String) (method : HTTPMethod) (start : Datetime) (status : Int)
    (type : String) (url : String) (body : Option PyValue) : HTTPResponse :=
  { body := match body with
      | none => .dict []
      | some v => if v.truthy then v else .dict []
    «end» := «end»
    headers := headers
    message := message
    method := method
    start := start
    status := status
    type := type
    url := url
    duration := durationSeconds «end» start }

/-- Embedding of `HTTPResponse.__getitem__` (lines 376-394):
`self._body.get(key, None)`, an explicit absent sentinel rather than an
error. Looking up in a non-dict body is not reachable from the source
(bodies are always dicts) and is modelled as the absent sentinel. -/
def HTTPResponse.getItem (r : HTTPResponse) (key : String) : Option PyValue :=
  match r.body with
  | .dict entries => entries.lookup key
  | _ => none

/-- Embedding of `HTTPResponse.dict` (lines 538-558): the serialized view,
in the key order the source writes. -/
def HTTPResponse.toDict (r : HTTPResponse) : List (String × PyValue) :=
  [("body", r.body),
   ("duration", .rat r.duration),
   ("end", .str r.«end».strfYmdHMS),
   ("headers", .dict r.headers),
   ("message", .str r.message),
   ("method", .str r.method.value),
   ("start", .str r.start.strfYmdHMS),
   ("status", .int r.status),
   ("type", .str r.type),
   ("url", .str r.url)]

/-- Embedding of `HTTPResponse.empty` (lines 560-569). -/
def HTTPResponse.isEmpty (r : HTTPResponse) : Bool := r.status == 204

/-- Embedding of `HTTPResponse.success` (lines 571-580). -/
def HTTPResponse.isSuccess (r : HTTPResponse) : Bool :=
  200 ≤ r.status && r.status < 300

/-- Embedding of `HTTPResponseFactory.create_response` (lines 590-640), which
forwards every argument to the `HTTPResponse` constructor. -/
def HTTPResponseFactory.create_response («end» : Datetime)
    (headers : List (String × PyValue)) (message : String) (method : HTTPMethod)
    (start : Datetime) (status : Int) (type : String) (url : String)
    (body : Option PyValue) : HTTPResponse :=
  HTTPResponse.init «end» headers message method start status type url body

/-- Embedding of the `HTTPResponseBuilder` state (line 659): one
configuration dictionary, here one `Option` per key the source ever
writes. -/
structure HTTPResponseBuilder : Type where
  «end» : Option Datetime
  headers : Option (List (String × PyValue))
  message : Option String
  method : Option HTTPMethod
  start : Option Datetime
  status : Option Int
  type : Option String
  url : Option String
  body : Option PyValue

/-- The freshly initialized builder: an empty configuration dictionary. -/
def HTTPResponseBuilder.new : HTTPResponseBuilder :=
  ⟨none, none, none, none, none, none, none, none, none⟩

/-- Embedding of `HTTPResponseBuilder.build` (lines 661-685): the required
keys are read in the order the call to `create_response` evaluates its
arguments (end, headers, message, method, start, status, type, url); the
first absent key raises `KeyError` naming it, exactly as
`self._configuration["..."]` does; `body` is read with default `{}`. -/
def HTTPResponseBuilder.build (b : HTTPResponseBuilder) :
    Except PyError HTTPResponse :=
  match b.«end» with
  | none => .error (.keyError "end")
  | some e =>
    match b.headers with
    | none => .error (.keyError "headers")
    | some h =>
      match b.message with
      | none => .error (.keyError "message")
      | some msg =>
        match b.method with
        | none => .error (.keyError "method")
        | some m =>
          match b.start with
          | none => .error (.keyError "start")
          | some s =>
            match b.status with
            | none => .error (.keyError "status")
            | some st =>
              match b.type with
              | none => .error (.keyError "type")
              | some ty =>
                match b.url with
                | none => .error (.keyError "url")
                | some u =>
                  .ok (HTTPResponseFactory.create_response e h msg m s st ty u
                    (some (b.body.getD (.dict []))))

/-- Normalization `with_body` applies to its argument (lines 702-704):
a dict is stored unchanged, anything else is wrapped as a one-entry dict
under the key "body". -/
def normalizeBody (v : PyValue) : PyValue :=
  if v.isDict then v else .dict [("body", v)]

/-- Embedding of `HTTPResponseBuilder.with_body` (lines 687-707). -/
def HTTPResponseBuilder.with_body (b : HTTPResponseBuilder) (v : PyValue) :
    HTTPResponseBuilder :=
  { b with body := some (normalizeBody v) }

/-- Embedding of `HTTPResponseBuilder.with_end` (lines 709-727). -/
def HTTPResponseBuilder.with_end (b : HTTPResponseBuilder) (v : Datetime) :
    HTTPResponseBuilder :=
  { b with «end» := some v }

/-- Embedding of `HTTPResponseBuilder.with_headers` (lines 729-747). -/
def HTTPResponseBuilder.with_headers (b : HTTPResponseBuilder)
    (v : List (String × PyValue)) : HTTPResponseBuilder :=
  { b with headers := some v }

/-- Embedding of `HTTPResponseBuilder.with_message` (lines 749-767). -/
def HTTPResponseBuilder.with_message (b : HTTPResponseBuilder) (v : String) :
    HTTPResponseBuilder :=
  { b with message := some v }

/-- Embedding of `HTTPResponseBuilder.with_method` (lines 769-787). -/
def HTTPResponseBuilder.with_method (b : HTTPResponseBuilder) (v : HTTPMethod) :
    HTTPResponseBuilder :=
  { b with method := some v }

/-- Embedding of `HTTPResponseBuilder.with_start` (lines 789-807). -/
def HTTPResponseBuilder.with_start (b : HTTPResponseBuilder) (v : Datetime) :
    HTTPResponseBuilder :=
  { b with start := some v }

/-- Embedding of `HTTPResponseBuilder.with_status` (lines 809-827). -/
def HTTPResponseBuilder.with_status (b : HTTPResponseBuilder) (v : Int) :
    HTTPResponseBuilder :=
  { b with status := some v }

/-- Embedding of `HTTPResponseBuilder.with_type` (lines 829-847). -/
def HTTPResponseBuilder.with_type (b : HTTPResponseBuilder) (v : String) :
    HTTPResponseBuilder :=
  { b with type := some v }

/-- Embedding of `HTTPResponseBuilder.with_url` (lines 849-867). -/
def HTTPResponseBuilder.with_url (b : HTTPResponseBuilder) (v : String) :
    HTTPResponseBuilder :=
  { b with url := some v }

/-- UTF-8 encoding of one character from its code point, as in
`str.encode("utf-8")`: one to four bytes depending on the code point. -/
def utf8EncodeCharBytes (c : Char) : List Nat :=
  if c.toNat < 128 then [c.toNat]
  else if c.toNat < 2048 then [192 + c.toNat / 64, 128 + c.toNat % 64]
  else if c.toNat < 65536 then
    [224 + c.toNat / 4096, 128 + c.toNat / 64 % 64, 128 + c.toNat % 64]
  else
    [240 + c.toNat / 262144, 128 + c.toNat / 4096 % 64, 128 + c.toNat / 64 % 64,
     128 + c.toNat % 64]

/-- UTF-8 encoding of a string as a byte list, modelling Python's
`s.encode("utf-8")`. -/
def utf8Encode (s : String) : List Nat :=
  (s.data.map utf8EncodeCharBytes).flatten

/-- The standard (RFC 4648, not URL-safe) base64 alphabet used by Python's
`base64.b64encode`. -/
def b64Alphabet : List Char :=
  ['A', 'B', 'C', 'D', 'E', 'F', 'G', 'H', 'I', 'J', 'K', 'L', 'M',
   'N', 'O', 'P', 'Q', 'R', 'S', 'T', 'U', 'V', 'W', 'X', 'Y', 'Z',
   'a', 'b', 'c', 'd', 'e', 'f', 'g', 'h', 'i', 'j', 'k', 'l', 'm',
   'n', 'o', 'p', 'q', 'r', 's', 't', 'u', 'v', 'w', 'x', 'y', 'z',
   '0', '1', '2', '3', '4', '5', '6', '7', '8', '9', '+', '/']

/-- The alphabet character for a 6-bit value. -/
def b64Char (v : Nat) : Char := b64Alphabet.getD v 'A'

/-- The 6-bit value of an alphabet character (its index in the alphabet). -/
def b64CharVal (c : Char) : Nat := b64Alphabet.indexOf c

/-- Base64 encoding of a byte list, three bytes to four characters, with
`=` padding kept for a trailing group of one or two bytes — the behavior of
Python's `base64.b64encode` with the standard alphabet. -/
def b64EncodeChunks : List Nat → List Char
  | [] => []
  | [b1] => [b64Char (b1 / 4), b64Char (b1 % 4 * 16), '=', '=']
  | [b1, b2] =>
      [b64Char (b1 / 4), b64Char (b1 % 4 * 16 + b2 / 16), b64Char (b2 % 16 * 4), '=']
  | b1 :: b2 :: b3 :: rest =>
      b64Char (b1 / 4) :: b64Char (b1 % 4 * 16 + b2 / 16)
        :: b64Char (b2 % 16 * 4 + b3 / 64) :: b64Char (b3 % 64)
        :: b64EncodeChunks rest

/-- Base64 encoding as a string. -/
def b64Encode (bs : List Nat) : String := String.mk (b64EncodeChunks bs)

/-- Base64 decoding of a character list, four characters to three bytes,
honoring `=` padding in the final group — the behavior of Python's
`base64.b64decode` on well-formed input. -/
def b64DecodeChunks : List Char → List Nat
  | c1 :: c2 :: c3 :: c4 :: rest =>
      let v1 := b64CharVal c1
      let v2 := b64CharVal c2
      if c3 = '=' then [v1 * 4 + v2 / 16]
      else
        let v3 := b64CharVal c3
        if c4 = '=' then [v1 * 4 + v2 / 16, v2 % 16 * 16 + v3 / 4]
        else
          (v1 * 4 + v2 / 16) :: (v2 % 16 * 16 + v3 / 4)
            :: (v3 % 4 * 64 + b64CharVal c4) :: b64DecodeChunks rest
  | _ => []

/-- Base64 decoding of a string to a byte list. -/
def b64Decode (s : String) : List Nat := b64DecodeChunks s.data

/-- Embedding of the `Authorization` credential holder (lines 27-197):
an immutable password and username, constructor argument order as in the
source. -/
structure Authorization : Type where
  password : String
  username : String

/-- Embedding of `Authorization.basic` (lines 103-112):
`"Basic " + b64encode(f"{username}:{password}".encode("utf-8"))`. -/
def Authorization.basic (a : Authorization) : String :=
  "Basic " ++ b64Encode (utf8Encode (a.username ++ ":" ++ a.password))

/-- Embedding of `Authorization.bearer` (lines 114-123). -/
def Authorization.bearer (a : Authorization) : String :=
  "Bearer " ++ a.password

/-- Embedding of `Authorization.custom` (lines 125-140): the only renderer
taking a parameter. -/
def Authorization.custom (a : Authorization) (scheme : String) : String :=
  scheme ++ " " ++ a.password

/-- Embedding of `Authorization.digest` (lines 142-151). -/
def Authorization.digest (a : Authorization) : String :=
  "Digest " ++ a.password

/-- Embedding of `Authorization.oauth` (lines 177-186). -/
def Authorization.oauth (a : Authorization) : String :=
  "OAuth " ++ a.password

/-- Embedding of `Authorization.oauth2` (lines 188-197). -/
def Authorization.oauth2 (a : Authorization) : String :=
  "OAuth2 " ++ a.password

/-- Embedding of `Authorization.header` (lines 153-175), which dispatches by
reflection: `{"Authorization": getattr(self, scheme)()}`. For the five
zero-argument renderers the lookup and call succeed; for "custom" the lookup
succeeds but the zero-argument call raises `TypeError`, because
`Authorization.custom` requires a `scheme` argument; for the credential
attributes — the `password` and `username` properties and the `_password`
and `_username` instance attributes set in `__init__` — the lookup finds a
string and the zero-argument call raises `TypeError` (a str object is not
callable); for a name that is no attribute of the object the lookup raises
`AttributeError` naming the object and the attribute. The object's only
remaining non-double-underscore attribute is `header` itself, on which the
reflective dispatch recurses without bound and which is therefore outside
the model; double-underscore members are likewise outside the model. The
theorems below exclude those names when they reach the final branch. -/
def Authorization.header (a : Authorization) (scheme : String) :
    Except PyError (List (String × String)) :=
  if scheme = "basic" then .ok [("Authorization", a.basic)]
  else if scheme = "bearer" then .ok [("Authorization", a.bearer)]
  else if scheme = "custom" then
    .error (.typeError "custom missing 1 required positional argument scheme")
  else if scheme = "digest" then .ok [("Authorization", a.digest)]
  else if scheme = "oauth" then .ok [("Authorization", a.oauth)]
  else if scheme = "oauth2" then .ok [("Authorization", a.oauth2)]
  else if scheme = "password" ∨ scheme = "username" ∨ scheme = "_password"
      ∨ scheme = "_username" then
    .error (.typeError "str object is not callable")
  else .error (.attributeError "Authorization" scheme)

/-- Names of the `Authorization` object's non-double-underscore attributes
other than the six renderer schemes: the two properties, the two instance
attributes backing them, and `header` itself. A `header` argument outside
the six schemes and outside this list (and not double-underscore) names no
attribute of the object, so `getattr` raises `AttributeError` there. -/
def authNonSchemeAttrs : List String :=
  ["password", "username", "_password", "_username", "header"]

/-- Embedding of Python's `str.startswith`, as a prefix test on the
character list (kept kernel-reducible). -/
def pyStartswith (s p : String) : Bool := p.data.isPrefixOf s.data

/-- Model of the transport's `aiohttp.ClientResponse` as the source consumes
it: the reported status, reason phrase and content type, and the three ways
the body can be read (`json()`, `text()`, `read()`). -/
structure ClientResponse : Type where
  status : Int
  reason : String
  content_type : String
  jsonData : List (String × PyValue)
  textData : String
  bytesData : List Nat

/-- Modelled from the spec: `aiohttp.ClientResponse.raise_for_status` is
external transport code, not part of this repository; per the spec's
transport capability and error model, a non-2xx status signals failure
before any body read. Returns `true` when the status signals failure. -/
def raiseForStatusFails (r : ClientResponse) : Bool :=
  !(200 ≤ r.status && r.status < 300)

/-- Embedding of `HTTPService._handle_content_type` (lines 875-906): decode
strategy chosen from the declared content type. -/
def HTTPService.handle_content_type (content_type : String)
    (response : ClientResponse) : PyValue :=
  if content_type = "application/json" then .dict response.jsonData
  else if content_type = "application/xml" then .str response.textData
  else if content_type = "application/octet-stream" then .bytes response.bytesData
  else if pyStartswith content_type "image/" then .bytes response.bytesData
  else .str response.textData

/-- Embedding of `HTTPService.get` (lines 908-993) as a function of the
transport's response and the two clock readings the call takes. The builder
records method, url, empty headers and the start time; then
`raise_for_status` either aborts the call with the status error, or the
builder records status, message, the reported content type, the decoded
body and the end time, and `build` assembles the response. -/
def HTTPService.get (url : String) (start finish : Datetime)
    (r : ClientResponse) : Except PyError HTTPResponse :=
  let b := ((((HTTPResponseBuilder.new.with_method HTTPMethod.GET).with_url
    url).with_headers []).with_start start)
  if raiseForStatusFails r then
    .error (.clientResponseError r.status r.reason)
  else
    (((((b.with_status r.status).with_message r.reason).with_type
      r.content_type).with_body
        (HTTPService.handle_content_type r.content_type r)).with_end
          finish).build

/-- Embedding of `HTTPService.post` (lines 995-1096). After the status check
passes and the builder records the status, line 1070 evaluates `str.JSON`
as the argument of `with_type`; the builtin `str` type has no attribute
`JSON`, so the call raises `AttributeError` there and the builder is
discarded — the remaining steps (message, body, end time, build) are
unreachable, which is why this embedding takes no end-time reading and the
request `data` does not influence the result. -/
def HTTPService.post (url : String) (_data headers : List (String × PyValue))
    (start : Datetime) (r : ClientResponse) : Except PyError HTTPResponse :=
  let b := ((((HTTPResponseBuilder.new.with_method HTTPMethod.POST).with_url
    url).with_headers headers).with_start start)
  if raiseForStatusFails r then
    .error (.clientResponseError r.status r.reason)
  else
    let _b := b.with_status r.status
    .error (.attributeError "str" "JSON")

/-- Embedding of `HTTPService.put` (lines 1098-1199): identical in structure
to `post`, including the `str.JSON` evaluation at line 1173. -/
def HTTPService.put (url : String) (_data headers : List (String × PyValue))
    (start : Datetime) (r : ClientResponse) : Except PyError HTTPResponse :=
  let b := ((((HTTPResponseBuilder.new.with_method HTTPMethod.PUT).with_url
    url).with_headers headers).with_start start)
  if raiseForStatusFails r then
    .error (.clientResponseError r.status r.reason)
  else
    let _b := b.with_status r.status
    .error (.attributeError "str" "JSON")

/-- Embedding of `HTTPService.delete` (lines 1201-1302): identical in
structure to `post`, including the `str.JSON` evaluation at line 1276. -/
def HTTPService.delete (url : String) (_data headers : List (String × PyValue))
    (start : Datetime) (r : ClientResponse) : Except PyError HTTPResponse :=
  let b := ((((HTTPResponseBuilder.new.with_method HTTPMethod.DELETE).with_url
    url).with_headers headers).with_start start)
  if raiseForStatusFails r then
    .error (.clientResponseError r.status r.reason)
  else
    let _b := b.with_status r.status
    .error (.attributeError "str" "JSON")

/-- Embedding of `HTTPService.patch` (lines 1304-1405): identical in
structure to `post`, including the `str.JSON` evaluation at line 1379. -/
def HTTPService.patch (url : String) (_data headers : List (String × PyValue))
    (start : Datetime) (r : ClientResponse) : Except PyError HTTPResponse :=
  let b := ((((HTTPResponseBuilder.new.with_method HTTPMethod.PATCH).with_url
    url).with_headers headers).with_start start)
  if raiseForStatusFails r then
    .error (.clientResponseError r.status r.reason)
  else
    let _b := b.with_status r.status
    .error (.attributeError "str" "JSON")

/-- Embedding of `HTTPService.options` (lines 1407-1500): takes headers but
no data, and also evaluates `str.JSON` (line 1475) after the status check. -/
def HTTPService.options (url : String) (headers : List (String × PyValue))
    (start : Datetime) (r : ClientResponse) : Except PyError HTTPResponse :=
  let b := ((((HTTPResponseBuilder.new.with_method HTTPMethod.OPTIONS).with_url
    url).with_headers headers).with_start start)
  if raiseForStatusFails r then
    .error (.clientResponseError r.status r.reason)
  else
    let _b := b.with_status r.status
    .error (.attributeError "str" "JSON")

/-- Embedding of `HTTPService.trace` (lines 1502-1585): records method, url
and start (no headers), and also evaluates `str.JSON` (line 1561) after the
status check. -/
def HTTPService.trace (url : String) (start : Datetime) (r : ClientResponse) :
    Except PyError HTTPResponse :=
  let b := (((HTTPResponseBuilder.new.with_method HTTPMethod.TRACE).with_url
    url).with_start start)
  if raiseForStatusFails r then
    .error (.clientResponseError r.status r.reason)
  else
    let _b := b.with_status r.status
    .error (.attributeError "str" "JSON")

/-- The configuration keys `build` requires, in the order the source reads
them (the evaluation order of the arguments at lines 672-680). -/
def requiredFields : List String :=
  ["end", "headers", "message", "method", "start", "status", "type", "url"]

/-- Whether the named key is present in the builder's configuration
dictionary. -/
def HTTPResponseBuilder.hasField (b : HTTPResponseBuilder) : String → Bool
  | "end" => b.«end».isSome
  | "headers" => b.headers.isSome
  | "message" => b.message.isSome
  | "method" => b.method.isSome
  | "start" => b.start.isSome
  | "status" => b.status.isSome
  | "type" => b.type.isSome
  | "url" => b.url.isSome
  | "body" => b.body.isSome
  | _ => false

/-! ## Helper lemmas -/

/-- Decoding an alphabet character recovers its 6-bit value (all 64 cases). -/
theorem b64CharVal_b64Char_fin : ∀ v : Fin 64, b64CharVal (b64Char v.val) = v.val := by
  decide

/-- Decoding an alphabet character recovers its 6-bit value. -/
theorem b64CharVal_b64Char {v : Nat} (h : v < 64) : b64CharVal (b64Char v) = v :=
  b64CharVal_b64Char_fin ⟨v, h⟩

/-- Padding never collides with the alphabet: `b64Char` never yields `=`. -/
theorem b64Char_ne_pad (v : Nat) : b64Char v ≠ '=' := by
  by_cases h : v < 64
  · exact (by decide : ∀ w : Fin 64, b64Char w.val ≠ '=') ⟨v, h⟩
  · unfold b64Char
    rw [List.getD_eq_default]
    · decide
    · simp only [b64Alphabet, List.length_cons, List.length_nil]
      omega

/-- Base64 decoding inverts base64 encoding on byte lists. -/
theorem b64_decode_encode : ∀ bs : List Nat, (∀ b ∈ bs, b < 256) →
    b64DecodeChunks (b64EncodeChunks bs) = bs
  | [], _ => rfl
  | [b1], h => by
      have hb1 : b1 < 256 := h b1 (by simp)
      simp only [b64EncodeChunks, b64DecodeChunks, if_pos rfl]
      rw [b64CharVal_b64Char (by omega), b64CharVal_b64Char (by omega)]
      simp only [if_true, List.cons.injEq, and_true]
      omega
  | [b1, b2], h => by
      have hb1 : b1 < 256 := h b1 (by simp)
      have hb2 : b2 < 256 := h b2 (by simp)
      simp only [b64EncodeChunks, b64DecodeChunks,
        if_neg (b64Char_ne_pad (b2 % 16 * 4)), if_pos rfl]
      rw [b64CharVal_b64Char (by omega), b64CharVal_b64Char (by omega),
        b64CharVal_b64Char (by omega)]
      simp only [if_true, List.cons.injEq, and_true]
      omega
  | b1 :: b2 :: b3 :: rest, h => by
      have hb1 : b1 < 256 := h b1 (by simp)
      have hb2 : b2 < 256 := h b2 (by simp)
      have hb3 : b3 < 256 := h b3 (by simp)
      have ih := b64_decode_encode rest (fun b hb => h b (by simp [hb]))
      simp only [b64EncodeChunks, b64DecodeChunks,
        if_neg (b64Char_ne_pad (b2 % 16 * 4 + b3 / 64)),
        if_neg (b64Char_ne_pad (b3 % 64))]
      rw [b64CharVal_b64Char (by omega), b64CharVal_b64Char (by omega),
        b64CharVal_b64Char (by omega), b64CharVal_b64Char (by omega), ih]
      simp only [List.cons.injEq, and_true]
      refine ⟨by omega, by omega, by omega⟩

/-- Every code point is below the Unicode bound. -/
theorem char_toNat_lt (c : Char) : c.toNat < 1114112 := by
  have h : c.toNat < 55296 ∨ 57343 < c.toNat ∧ c.toNat < 1114112 := c.valid
  omega

/-- UTF-8 encoding produces bytes. -/
theorem utf8EncodeCharBytes_lt (c : Char) : ∀ b ∈ utf8EncodeCharBytes c, b < 256 := by
  have hc := char_toNat_lt c
  intro b hb
  unfold utf8EncodeCharBytes at hb
  split_ifs at hb <;> simp only [List.mem_cons, List.not_mem_nil, or_false] at hb <;>
    rcases hb with rfl | rfl | rfl | rfl <;> omega

/-- All bytes of a UTF-8 encoded string are below 256. -/
theorem utf8Encode_lt (s : String) : ∀ b ∈ utf8Encode s, b < 256 := by
  intro b hb
  simp only [utf8Encode, List.mem_flatten, List.mem_map] at hb
  obtain ⟨l, ⟨c, _, rfl⟩, hbl⟩ := hb
  exact utf8EncodeCharBytes_lt c b hbl

/-- The normalized body stored by `with_body` is always a dict. -/
theorem normalizeBody_isDict (v : PyValue) : (normalizeBody v).isDict = true := by
  cases v <;> rfl

/-- Shape of a successful `build`: every required configuration key was
present and the response is the factory's output on those values, with the
`body` key read under its default. -/
theorem build_ok_shape (b : HTTPResponseBuilder) (r : HTTPResponse)
    (h : b.build = .ok r) :
    ∃ e hd ms me s st ty u,
      b.«end» = some e ∧ b.headers = some hd ∧ b.message = some ms ∧
      b.method = some me ∧ b.start = some s ∧ b.status = some st ∧
      b.type = some ty ∧ b.url = some u ∧
      r = HTTPResponse.init e hd ms me s st ty u (some (b.body.getD (.dict []))) := by
  unfold HTTPResponseBuilder.build at h
  cases hE : b.«end» with
  | none => rw [hE] at h; exact Except.noConfusion h
  | some e =>
  rw [hE] at h
  cases hH : b.headers with
  | none => rw [hH] at h; exact Except.noConfusion h
  | some hd =>
  rw [hH] at h
  cases hM : b.message with
  | none => rw [hM] at h; exact Except.noConfusion h
  | some ms =>
  rw [hM] at h
  cases hMe : b.method with
  | none => rw [hMe] at h; exact Except.noConfusion h
  | some me =>
  rw [hMe] at h
  cases hS : b.start with
  | none => rw [hS] at h; exact Except.noConfusion h
  | some s =>
  rw [hS] at h
  cases hSt : b.status with
  | none => rw [hSt] at h; exact Except.noConfusion h
  | some st =>
  rw [hSt] at h
  cases hT : b.type with
  | none => rw [hT] at h; exact Except.noConfusion h
  | some ty =>
  rw [hT] at h
  cases hU : b.url with
  | none => rw [hU] at h; exact Except.noConfusion h
  | some u =>
  rw [hU] at h
  exact ⟨e, hd, ms, me, s, st, ty, u, rfl, rfl, rfl, rfl, rfl, rfl, rfl, rfl,
    (Except.ok.inj h).symm⟩

/-- An option whose `isSome` test is false is `none`. -/
theorem option_eq_none_of_isSome_false {α : Type _} {o : Option α}
    (h : o.isSome = false) : o = none := by
  cases o
  · rfl
  · simp at h

/-! ## Claim theorems -/

/-- C9 (counterexample): the code's `HTTPMethod` enumeration contains the
member `HEAD`, whose wire token is outside the seven verbs the claim lists,
so the enumeration is not exactly those seven. -/
theorem c9_head_member_counterexample :
    HTTPMethod.HEAD.value = "HEAD" ∧
    "HEAD" ∉ ["GET", "POST", "PUT", "DELETE", "PATCH", "OPTIONS", "TRACE"] := by
  exact ⟨rfl, by decide⟩

/-- C9 (amended): `HTTPMethod` is a closed enumeration of exactly the eight
members GET, POST, PUT, DELETE, PATCH, HEAD, OPTIONS, TRACE — no value
outside that set is constructible — and every member stringifies (via
`__str__`, which returns `self.value`) to its own wire-form token. -/
theorem c9_closed_enumeration :
    (∀ m : HTTPMethod, m ∈ [HTTPMethod.GET, HTTPMethod.POST, HTTPMethod.PUT,
      HTTPMethod.DELETE, HTTPMethod.PATCH, HTTPMethod.HEAD, HTTPMethod.OPTIONS,
      HTTPMethod.TRACE])
  ∧ (∀ m : HTTPMethod, m.toStr = m.value)
  ∧ HTTPMethod.GET.value = "GET" ∧ HTTPMethod.POST.value = "POST"
  ∧ HTTPMethod.PUT.value = "PUT" ∧ HTTPMethod.DELETE.value = "DELETE"
  ∧ HTTPMethod.PATCH.value = "PATCH" ∧ HTTPMethod.HEAD.value = "HEAD"
  ∧ HTTPMethod.OPTIONS.value = "OPTIONS" ∧ HTTPMethod.TRACE.value = "TRACE" := by
  refine ⟨fun m => by cases m <;> simp, fun m => rfl,
    rfl, rfl, rfl, rfl, rfl, rfl, rfl, rfl⟩

/-- C4: the body decoding strategy is exactly determined by the declared
content type: `application/json` decodes to the structured value mapping,
`application/xml` to raw text, `application/octet-stream` and every
`image/`-prefixed type to raw bytes, and every other type to raw text. -/
theorem c4_content_type_dispatch (ct : String) (r : ClientResponse) :
    (ct = "application/json" →
      HTTPService.handle_content_type ct r = .dict r.jsonData)
  ∧ (ct = "application/xml" →
      HTTPService.handle_content_type ct r = .str r.textData)
  ∧ (ct = "application/octet-stream" →
      HTTPService.handle_content_type ct r = .bytes r.bytesData)
  ∧ (pyStartswith ct "image/" = true →
      HTTPService.handle_content_type ct r = .bytes r.bytesData)
  ∧ (ct ≠ "application/json" → ct ≠ "application/xml" →
      ct ≠ "application/octet-stream" → pyStartswith ct "image/" = false →
      HTTPService.handle_content_type ct r = .str r.textData) := by
  refine ⟨fun h => by subst h; rfl, fun h => by subst h; rfl,
    fun h => by subst h; rfl, fun h => ?_, fun h1 h2 h3 h4 => ?_⟩
  · have n1 : ct ≠ "application/json" := by
      intro e; subst e; exact absurd h (by decide)
    have n2 : ct ≠ "application/xml" := by
      intro e; subst e; exact absurd h (by decide)
    have n3 : ct ≠ "application/octet-stream" := by
      intro e; subst e; exact absurd h (by decide)
    simp [HTTPService.handle_content_type, n1, n2, n3, h]
  · simp [HTTPService.handle_content_type, h1, h2, h3, h4]

/-- C7: for every response the construction computes, `duration` is the
end-minus-start difference in seconds (an end 1.5 seconds after the start
gives duration 3/2), `empty()` holds exactly at status 204, and `success()`
holds exactly for statuses in [200, 300). -/
theorem c7_response_observables (e : Datetime) (hd : List (String × PyValue))
    (ms : String) (me : HTTPMethod) (s : Datetime) (st : Int) (ty u : String)
    (bo : Option PyValue) :
    (HTTPResponse.init e hd ms me s st ty u bo).duration
        = ((e.toUsec : ℚ) - (s.toUsec : ℚ)) / 1000000
  ∧ ((HTTPResponse.init e hd ms me s st ty u bo).isEmpty = true ↔ st = 204)
  ∧ ((HTTPResponse.init e hd ms me s st ty u bo).isSuccess = true ↔
      200 ≤ st ∧ st < 300)
  ∧ (e.toUsec = s.toUsec + 1500000 →
      (HTTPResponse.init e hd ms me s st ty u bo).duration = 3 / 2) := by
  refine ⟨rfl, ?_, ?_, fun h => ?_⟩
  · simp [HTTPResponse.init, HTTPResponse.isEmpty]
  · simp [HTTPResponse.init, HTTPResponse.isSuccess, Bool.and_eq_true,
      decide_eq_true_eq]
  · show durationSeconds e s = 3 / 2
    unfold durationSeconds
    rw [h]
    push_cast
    ring_nf

/-- C8: the serialized view has exactly the ten documented keys, renders the
timestamps through the fixed `"%Y-%m-%d %H:%M:%S"` pattern (zero-padded,
seconds precision, no timezone, no fractional seconds — witnessed on a
concrete datetime whose microsecond field is dropped), the method as its wire
token, and the duration as the stored rational seconds value. -/
theorem c8_dict_serialization (r : HTTPResponse) :
    r.toDict.map Prod.fst =
      ["body", "duration", "end", "headers", "message", "method", "start",
       "status", "type", "url"]
  ∧ r.toDict.lookup "start" = some (.str r.start.strfYmdHMS)
  ∧ r.toDict.lookup "end" = some (.str r.«end».strfYmdHMS)
  ∧ r.toDict.lookup "method" = some (.str r.method.value)
  ∧ r.toDict.lookup "duration" = some (.rat r.duration)
  ∧ (∀ d : Datetime, d.strfYmdHMS
      = padZero 4 d.year ++ "-" ++ padZero 2 d.month ++ "-" ++ padZero 2 d.day
        ++ " " ++ padZero 2 d.hour ++ ":" ++ padZero 2 d.minute ++ ":"
        ++ padZero 2 d.second)
  ∧ Datetime.strfYmdHMS ⟨2025, 8, 8, 9, 5, 3, 123456⟩ = "2025-08-08 09:05:03" := by
  refine ⟨rfl, rfl, rfl, rfl, rfl, fun d => rfl, by decide⟩

/-- C10: `with_body` stores a dict argument unchanged and wraps any other
value as the one-entry dict under the key "body"; consequently the body of a
response built after `with_body` (or with no body recorded at all) is always
a dict, and a text body surfaces through item lookup under the key "body". -/
theorem c10_with_body_normalization (c : HTTPResponseBuilder) (v : PyValue) :
    ((∃ entries, v = PyValue.dict entries) → (c.with_body v).body = some v)
  ∧ ((∀ entries, v ≠ PyValue.dict entries) →
      (c.with_body v).body = some (.dict [("body", v)]))
  ∧ (∀ r, (c.with_body v).build = .ok r → r.body.isDict = true)
  ∧ (c.body = none → ∀ r, c.build = .ok r → r.body.isDict = true)
  ∧ (∀ t r, (c.with_body (.str t)).build = .ok r →
      r.getItem "body" = some (.str t)) := by
  refine ⟨?_, ?_, ?_, ?_, ?_⟩
  · rintro ⟨entries, rfl⟩
    rfl
  · intro h
    cases v
    case dict entries => exact absurd rfl (h entries)
    all_goals rfl
  · intro r h
    obtain ⟨e, hd, ms, me, s, st, ty, u, _, _, _, _, _, _, _, _, hr⟩ :=
      build_ok_shape _ _ h
    subst hr
    show (if (normalizeBody v).truthy then normalizeBody v
      else PyValue.dict []).isDict = true
    split
    · exact normalizeBody_isDict v
    · rfl
  · intro hnone r h
    obtain ⟨e, hd, ms, me, s, st, ty, u, _, _, _, _, _, _, _, _, hr⟩ :=
      build_ok_shape _ _ h
    subst hr
    rw [hnone]
    rfl
  · intro t r h
    obtain ⟨e, hd, ms, me, s, st, ty, u, _, _, _, _, _, _, _, _, hr⟩ :=
      build_ok_shape _ _ h
    subst hr
    rfl

/-- C3: a configuration in which exactly one required field is missing fails
with the `KeyError` naming that field (the MissingField failure); a
configuration with every required field present and no recorded body builds
a response whose body is the empty dict. -/
theorem c3_build_validation (b : HTTPResponseBuilder) :
    (∀ f ∈ requiredFields, b.hasField f = false →
      (∀ g ∈ requiredFields, g ≠ f → b.hasField g = true) →
      b.build = .error (.keyError f))
  ∧ ((∃ f ∈ requiredFields, b.hasField f = false) →
      ∃ f ∈ requiredFields, b.hasField f = false ∧
        b.build = .error (.keyError f))
  ∧ ((∀ f ∈ requiredFields, b.hasField f = true) → b.body = none →
      ∃ r, b.build = .ok r ∧ r.body = .dict []) := by
  refine ⟨?_, ?_, ?_⟩
  · intro f hf hmiss hothers
    fin_cases hf
    · have hx : b.«end».isSome = false := hmiss
      have hE := option_eq_none_of_isSome_false hx
      simp only [HTTPResponseBuilder.build, hE]
    · obtain ⟨e, hE⟩ := Option.isSome_iff_exists.mp
        (hothers "end" (by decide) (by decide))
      have hx : b.headers.isSome = false := hmiss
      have hH := option_eq_none_of_isSome_false hx
      simp only [HTTPResponseBuilder.build, hE, hH]
    · obtain ⟨e, hE⟩ := Option.isSome_iff_exists.mp
        (hothers "end" (by decide) (by decide))
      obtain ⟨hd, hH⟩ := Option.isSome_iff_exists.mp
        (hothers "headers" (by decide) (by decide))
      have hx : b.message.isSome = false := hmiss
      have hM := option_eq_none_of_isSome_false hx
      simp only [HTTPResponseBuilder.build, hE, hH, hM]
    · obtain ⟨e, hE⟩ := Option.isSome_iff_exists.mp
        (hothers "end" (by decide) (by decide))
      obtain ⟨hd, hH⟩ := Option.isSome_iff_exists.mp
        (hothers "headers" (by decide) (by decide))
      obtain ⟨ms, hM⟩ := Option.isSome_iff_exists.mp
        (hothers "message" (by decide) (by decide))
      have hx : b.method.isSome = false := hmiss
      have hMe := option_eq_none_of_isSome_false hx
      simp only [HTTPResponseBuilder.build, hE, hH, hM, hMe]
    · obtain ⟨e, hE⟩ := Option.isSome_iff_exists.mp
        (hothers "end" (by decide) (by decide))
      obtain ⟨hd, hH⟩ := Option.isSome_iff_exists.mp
        (hothers "headers" (by decide) (by decide))
      obtain ⟨ms, hM⟩ := Option.isSome_iff_exists.mp
        (hothers "message" (by decide) (by decide))
      obtain ⟨me, hMe⟩ := Option.isSome_iff_exists.mp
        (hothers "method" (by decide) (by decide))
      have hx : b.start.isSome = false := hmiss
      have hS := option_eq_none_of_isSome_false hx
      simp only [HTTPResponseBuilder.build, hE, hH, hM, hMe, hS]
    · obtain ⟨e, hE⟩ := Option.isSome_iff_exists.mp
        (hothers "end" (by decide) (by decide))
      obtain ⟨hd, hH⟩ := Option.isSome_iff_exists.mp
        (hothers "headers" (by decide) (by decide))
      obtain ⟨ms, hM⟩ := Option.isSome_iff_exists.mp
        (hothers "message" (by decide) (by decide))
      obtain ⟨me, hMe⟩ := Option.isSome_iff_exists.mp
        (hothers "method" (by decide) (by decide))
      obtain ⟨s, hS⟩ := Option.isSome_iff_exists.mp
        (hothers "start" (by decide) (by decide))
      have hx : b.status.isSome = false := hmiss
      have hSt := option_eq_none_of_isSome_false hx
      simp only [HTTPResponseBuilder.build, hE, hH, hM, hMe, hS, hSt]
    · obtain ⟨e, hE⟩ := Option.isSome_iff_exists.mp
        (hothers "end" (by decide) (by decide))
      obtain ⟨hd, hH⟩ := Option.isSome_iff_exists.mp
        (hothers "headers" (by decide) (by decide))
      obtain ⟨ms, hM⟩ := Option.isSome_iff_exists.mp
        (hothers "message" (by decide) (by decide))
      obtain ⟨me, hMe⟩ := Option.isSome_iff_exists.mp
        (hothers "method" (by decide) (by decide))
      obtain ⟨s, hS⟩ := Option.isSome_iff_exists.mp
        (hothers "start" (by decide) (by decide))
      obtain ⟨st, hSt⟩ := Option.isSome_iff_exists.mp
        (hothers "status" (by decide) (by decide))
      have hx : b.type.isSome = false := hmiss
      have hT := option_eq_none_of_isSome_false hx
      simp only [HTTPResponseBuilder.build, hE, hH, hM, hMe, hS, hSt, hT]
    · obtain ⟨e, hE⟩ := Option.isSome_iff_exists.mp
        (hothers "end" (by decide) (by decide))
      obtain ⟨hd, hH⟩ := Option.isSome_iff_exists.mp
        (hothers "headers" (by decide) (by decide))
      obtain ⟨ms, hM⟩ := Option.isSome_iff_exists.mp
        (hothers "message" (by decide) (by decide))
      obtain ⟨me, hMe⟩ := Option.isSome_iff_exists.mp
        (hothers "method" (by decide) (by decide))
      obtain ⟨s, hS⟩ := Option.isSome_iff_exists.mp
        (hothers "start" (by decide) (by decide))
      obtain ⟨st, hSt⟩ := Option.isSome_iff_exists.mp
        (hothers "status" (by decide) (by decide))
      obtain ⟨ty, hT⟩ := Option.isSome_iff_exists.mp
        (hothers "type" (by decide) (by decide))
      have hx : b.url.isSome = false := hmiss
      have hU := option_eq_none_of_isSome_false hx
      simp only [HTTPResponseBuilder.build, hE, hH, hM, hMe, hS, hSt, hT, hU]
  · intro hex
    by_cases hE : b.«end» = none
    · exact ⟨"end", by decide,
        by rw [show b.hasField "end" = b.«end».isSome from rfl, hE]; rfl,
        by simp only [HTTPResponseBuilder.build, hE]⟩
    obtain ⟨e, hE'⟩ := Option.ne_none_iff_exists'.mp hE
    by_cases hH : b.headers = none
    · exact ⟨"headers", by decide,
        by rw [show b.hasField "headers" = b.headers.isSome from rfl, hH]; rfl,
        by simp only [HTTPResponseBuilder.build, hE', hH]⟩
    obtain ⟨hd, hH'⟩ := Option.ne_none_iff_exists'.mp hH
    by_cases hM : b.message = none
    · exact ⟨"message", by decide,
        by rw [show b.hasField "message" = b.message.isSome from rfl, hM]; rfl,
        by simp only [HTTPResponseBuilder.build, hE', hH', hM]⟩
    obtain ⟨ms, hM'⟩ := Option.ne_none_iff_exists'.mp hM
    by_cases hMe : b.method = none
    · exact ⟨"method", by decide,
        by rw [show b.hasField "method" = b.method.isSome from rfl, hMe]; rfl,
        by simp only [HTTPResponseBuilder.build, hE', hH', hM', hMe]⟩
    obtain ⟨me, hMe'⟩ := Option.ne_none_iff_exists'.mp hMe
    by_cases hS : b.start = none
    · exact ⟨"start", by decide,
        by rw [show b.hasField "start" = b.start.isSome from rfl, hS]; rfl,
        by simp only [HTTPResponseBuilder.build, hE', hH', hM', hMe', hS]⟩
    obtain ⟨s, hS'⟩ := Option.ne_none_iff_exists'.mp hS
    by_cases hSt : b.status = none
    · exact ⟨"status", by decide,
        by rw [show b.hasField "status" = b.status.isSome from rfl, hSt]; rfl,
        by simp only [HTTPResponseBuilder.build, hE', hH', hM', hMe', hS', hSt]⟩
    obtain ⟨st, hSt'⟩ := Option.ne_none_iff_exists'.mp hSt
    by_cases hT : b.type = none
    · exact ⟨"type", by decide,
        by rw [show b.hasField "type" = b.type.isSome from rfl, hT]; rfl,
        by simp only [HTTPResponseBuilder.build, hE', hH', hM', hMe', hS', hSt', hT]⟩
    obtain ⟨ty, hT'⟩ := Option.ne_none_iff_exists'.mp hT
    by_cases hU : b.url = none
    · exact ⟨"url", by decide,
        by rw [show b.hasField "url" = b.url.isSome from rfl, hU]; rfl,
        by simp only [HTTPResponseBuilder.build, hE', hH', hM', hMe', hS', hSt',
          hT', hU]⟩
    obtain ⟨u, hU'⟩ := Option.ne_none_iff_exists'.mp hU
    obtain ⟨f, hfmem, hmiss⟩ := hex
    exfalso
    fin_cases hfmem
    · rw [show b.hasField "end" = b.«end».isSome from rfl, hE'] at hmiss
      exact absurd hmiss (by simp)
    · rw [show b.hasField "headers" = b.headers.isSome from rfl, hH'] at hmiss
      exact absurd hmiss (by simp)
    · rw [show b.hasField "message" = b.message.isSome from rfl, hM'] at hmiss
      exact absurd hmiss (by simp)
    · rw [show b.hasField "method" = b.method.isSome from rfl, hMe'] at hmiss
      exact absurd hmiss (by simp)
    · rw [show b.hasField "start" = b.start.isSome from rfl, hS'] at hmiss
      exact absurd hmiss (by simp)
    · rw [show b.hasField "status" = b.status.isSome from rfl, hSt'] at hmiss
      exact absurd hmiss (by simp)
    · rw [show b.hasField "type" = b.type.isSome from rfl, hT'] at hmiss
      exact absurd hmiss (by simp)
    · rw [show b.hasField "url" = b.url.isSome from rfl, hU'] at hmiss
      exact absurd hmiss (by simp)
  · intro hall hbody
    obtain ⟨e, hE⟩ := Option.isSome_iff_exists.mp (hall "end" (by decide))
    obtain ⟨hd, hH⟩ := Option.isSome_iff_exists.mp (hall "headers" (by decide))
    obtain ⟨ms, hM⟩ := Option.isSome_iff_exists.mp (hall "message" (by decide))
    obtain ⟨me, hMe⟩ := Option.isSome_iff_exists.mp (hall "method" (by decide))
    obtain ⟨s, hS⟩ := Option.isSome_iff_exists.mp (hall "start" (by decide))
    obtain ⟨st, hSt⟩ := Option.isSome_iff_exists.mp (hall "status" (by decide))
    obtain ⟨ty, hT⟩ := Option.isSome_iff_exists.mp (hall "type" (by decide))
    obtain ⟨u, hU⟩ := Option.isSome_iff_exists.mp (hall "url" (by decide))
    refine ⟨HTTPResponse.init e hd ms me s st ty u
      (some (b.body.getD (.dict []))), ?_, ?_⟩
    · simp only [HTTPResponseBuilder.build, hE, hH, hM, hMe, hS, hSt, hT, hU]
      rfl
    · rw [hbody]
      rfl

/-- C2: when the transport reports a non-2xx status, every verb call fails
with the status error carrying the transport's status and reason, and no
`HTTPResponse` is produced on that path; moreover the GET result is
independent of the transport's body data (json, text and bytes reads),
showing the error is raised before the body is read. -/
theorem c2_non2xx_aborts (url : String) (data headers : List (String × PyValue))
    (start finish : Datetime) (r : ClientResponse)
    (h : ¬(200 ≤ r.status ∧ r.status < 300)) :
    HTTPService.get url start finish r
        = .error (.clientResponseError r.status r.reason)
  ∧ HTTPService.post url data headers start r
        = .error (.clientResponseError r.status r.reason)
  ∧ HTTPService.put url data headers start r
        = .error (.clientResponseError r.status r.reason)
  ∧ HTTPService.delete url data headers start r
        = .error (.clientResponseError r.status r.reason)
  ∧ HTTPService.patch url data headers start r
        = .error (.clientResponseError r.status r.reason)
  ∧ HTTPService.options url headers start r
        = .error (.clientResponseError r.status r.reason)
  ∧ HTTPService.trace url start r
        = .error (.clientResponseError r.status r.reason)
  ∧ (∀ r2 : ClientResponse, r2.status = r.status → r2.reason = r.reason →
      HTTPService.get url start finish r2 = HTTPService.get url start finish r) := by
  have hf : raiseForStatusFails r = true := by
    unfold raiseForStatusFails
    by_cases h1 : 200 ≤ r.status
    · by_cases h2 : r.status < 300
      · exact absurd ⟨h1, h2⟩ h
      · simp [h2]
    · simp [h1]
  refine ⟨by simp [HTTPService.get, hf], by simp [HTTPService.post, hf],
    by simp [HTTPService.put, hf], by simp [HTTPService.delete, hf],
    by simp [HTTPService.patch, hf], by simp [HTTPService.options, hf],
    by simp [HTTPService.trace, hf], ?_⟩
  intro r2 h1 h2
  have hf2 : raiseForStatusFails r2 = true := by
    unfold raiseForStatusFails
    rw [h1]
    exact hf
  simp [HTTPService.get, hf, hf2, h1, h2]

/-- C2 witness: a GET whose transport reports status 404 fails with the
status error at a concrete input. -/
theorem c2_non2xx_aborts_witness :
    HTTPService.get "https://example.com/a" ⟨2025, 1, 1, 0, 0, 0, 0⟩
        ⟨2025, 1, 1, 0, 0, 1, 0⟩ ⟨404, "Not Found", "text/html", [], "x", []⟩
      = .error (.clientResponseError 404 "Not Found") :=
  (c2_non2xx_aborts "https://example.com/a" [] [] ⟨2025, 1, 1, 0, 0, 0, 0⟩
    ⟨2025, 1, 1, 0, 0, 1, 0⟩ ⟨404, "Not Found", "text/html", [], "x", []⟩
    (by decide)).1

/-- C5 (the code's actual behavior at the claim's scenario): on a successful
2xx transport status, every non-GET verb evaluates `str.JSON` — an attribute
the builtin `str` type does not have — so the call fails with
`AttributeError` instead of returning a response carrying a JSON-literal
placeholder type, while a successful GET returns a response whose `type` is
the content type the transport reported. -/
theorem c5_type_field_paths (url : String) (data headers : List (String × PyValue))
    (start finish : Datetime) (r : ClientResponse)
    (h : 200 ≤ r.status ∧ r.status < 300) :
    HTTPService.post url data headers start r
        = .error (.attributeError "str" "JSON")
  ∧ HTTPService.put url data headers start r
        = .error (.attributeError "str" "JSON")
  ∧ HTTPService.delete url data headers start r
        = .error (.attributeError "str" "JSON")
  ∧ HTTPService.patch url data headers start r
        = .error (.attributeError "str" "JSON")
  ∧ HTTPService.options url headers start r
        = .error (.attributeError "str" "JSON")
  ∧ HTTPService.trace url start r
        = .error (.attributeError "str" "JSON")
  ∧ (∀ resp, HTTPService.get url start finish r = .ok resp →
      resp.type = r.content_type) := by
  have hf : raiseForStatusFails r = false := by
    unfold raiseForStatusFails
    simp [h.1, h.2]
  refine ⟨by simp [HTTPService.post, hf], by simp [HTTPService.put, hf],
    by simp [HTTPService.delete, hf], by simp [HTTPService.patch, hf],
    by simp [HTTPService.options, hf], by simp [HTTPService.trace, hf], ?_⟩
  intro resp hresp
  simp only [HTTPService.get, hf, Bool.false_eq_true, if_false] at hresp
  obtain ⟨e, hd2, ms, me, s, st, ty, u, hE, hH, hM, hMe, hS, hSt, hT, hU, hr⟩ :=
    build_ok_shape _ _ hresp
  have h1 : some r.content_type = some ty := hT
  subst hr
  exact (Option.some.inj h1).symm

/-- C5 witness: a POST whose transport reports status 200 fails with the
`AttributeError` at a concrete input. -/
theorem c5_type_field_paths_witness :
    HTTPService.post "https://example.com/a" [] [] ⟨2025, 1, 1, 0, 0, 0, 0⟩
        ⟨200, "OK", "application/json", [], "", []⟩
      = .error (.attributeError "str" "JSON") :=
  (c5_type_field_paths "https://example.com/a" [] [] ⟨2025, 1, 1, 0, 0, 0, 0⟩
    ⟨2025, 1, 1, 0, 0, 1, 0⟩ ⟨200, "OK", "application/json", [], "", []⟩
    (by decide)).1

/-- C1 (counterexample): "custom" is one of the six scheme names the claim
covers, yet `header("custom")` does not return a mapping — the reflective
call `getattr(self, "custom")()` fails because the `custom` renderer
requires a scheme argument. -/
theorem c1_header_custom_counterexample :
    Authorization.header ⟨"pw", "user"⟩ "custom"
      = .error (.typeError "custom missing 1 required positional argument scheme") :=
  rfl

/-- C1 (amended): for the five zero-argument schemes basic, bearer, digest,
oauth and oauth2, `header(scheme)` returns the single-entry mapping from
"Authorization" to the scheme's rendered value; `header("custom")` fails
with a `TypeError` because the custom renderer requires a scheme argument;
for the credential attribute names password, username, _password and
_username the lookup finds a string and the call fails with a `TypeError`
(a str object is not callable); and for a scheme name outside the six that
names no attribute of the object (not a credential attribute, not `header`
itself, not double-underscore), `header` fails with an attribute-lookup
error identifying the scheme. -/
theorem c1_header_dispatch (a : Authorization) (scheme : String) :
    Authorization.header a "basic" = .ok [("Authorization", a.basic)]
  ∧ Authorization.header a "bearer" = .ok [("Authorization", a.bearer)]
  ∧ Authorization.header a "digest" = .ok [("Authorization", a.digest)]
  ∧ Authorization.header a "oauth" = .ok [("Authorization", a.oauth)]
  ∧ Authorization.header a "oauth2" = .ok [("Authorization", a.oauth2)]
  ∧ Authorization.header a "custom"
      = .error (.typeError "custom missing 1 required positional argument scheme")
  ∧ (scheme ∈ ["password", "username", "_password", "_username"] →
      Authorization.header a scheme = .error (.typeError "str object is not callable"))
  ∧ (scheme ∉ ["basic", "bearer", "custom", "digest", "oauth", "oauth2"] →
      scheme ∉ authNonSchemeAttrs → pyStartswith scheme "__" = false →
      Authorization.header a scheme = .error (.attributeError "Authorization" scheme)) := by
  refine ⟨rfl, rfl, rfl, rfl, rfl, rfl, ?_, ?_⟩
  · intro hmem
    fin_cases hmem <;> rfl
  · intro h1 h2 _
    simp only [List.mem_cons, List.not_mem_nil, or_false, not_or] at h1
    obtain ⟨n1, n2, n3, n4, n5, n6⟩ := h1
    simp only [authNonSchemeAttrs, List.mem_cons, List.not_mem_nil, or_false,
      not_or] at h2
    obtain ⟨m1, m2, m3, m4, _⟩ := h2
    simp [Authorization.header, n1, n2, n3, n4, n5, n6, m1, m2, m3, m4]

/-- C6: `Authorization.basic` is the string "Basic " followed by the
standard, padded base64 encoding of the UTF-8 bytes of
`username ++ ":" ++ password`, and base64-decoding that encoding recovers
exactly those bytes. -/
theorem c6_basic_base64_roundtrip (u p : String) :
    Authorization.basic ⟨p, u⟩
        = "Basic " ++ b64Encode (utf8Encode (u ++ ":" ++ p))
  ∧ b64Decode (b64Encode (utf8Encode (u ++ ":" ++ p)))
        = utf8Encode (u ++ ":" ++ p) := by
  refine ⟨rfl, ?_⟩
  show b64DecodeChunks (String.mk (b64EncodeChunks (utf8Encode (u ++ ":" ++ p)))).data
      = utf8Encode (u ++ ":" ++ p)
  exact b64_decode_encode _ (utf8Encode_lt _)

end WebUtils
